import Mathlib

/-!
Verification of the christianwhocodes developer-utilities package:
the configuration-file generation subsystem
(src/christianwhocodes/core/generators/file.py and the superseded
variant in src/christianwhocodes/generators/base.py and configs.py)
and the copy subsystem (src/christianwhocodes/core/io/fscopy.py).

The filesystem is modelled as a map from resolved paths (lists of
segments) to entries carrying a kind, an st_size and a text content.
Side-effecting library calls (mkdir, write_text, chmod, rmtree, copy2,
copytree) are modelled as actions; an oracle says which action raises
which Python exception when attempted.  Console output is collected as
a list of printed message strings, and reads from standard input are
taken from an explicit response stream.
-/

namespace Cwc

/-- A filesystem path after resolution, as a list of path segments. -/
abbrev FsPath := List String

/-- The parent directory of a path, as in pathlib `path.parent`. -/
def FsPath.parent (p : FsPath) : FsPath := p.dropLast

/-- Render a path for interpolation into printed messages. -/
def pathStr (p : FsPath) : String := String.intercalate ("/") p

/-- Kind of a filesystem entry: regular file, directory, or other
(socket, fifo, device, ...). -/
inductive EntryKind where
  | file
  | dir
  | other
deriving DecidableEq, Repr

/-- One filesystem entry: its kind, its stat st_size, and (for regular
files) its text content. -/
structure Entry where
  kind : EntryKind
  size : Nat
  content : String
deriving DecidableEq, Repr

/-- A filesystem state: a map from resolved paths to entries. -/
abbrev FS := FsPath → Option Entry

/-- Model of pathlib `Path.exists()`. -/
def FS.pathExists (fs : FS) (p : FsPath) : Bool := (fs p).isSome

/-- Model of pathlib `Path.is_file()`: true exactly for regular files. -/
def FS.isFile (fs : FS) (p : FsPath) : Bool :=
  match fs p with
  | some e => e.kind = EntryKind.file
  | none => false

/-- Model of pathlib `Path.is_dir()`: true exactly for directories. -/
def FS.isDir (fs : FS) (p : FsPath) : Bool :=
  match fs p with
  | some e => e.kind = EntryKind.dir
  | none => false

/-- Model of `path.stat().st_size`; only consulted after an existence
check in the embedded code, so the default for a missing path is moot. -/
def FS.stSize (fs : FS) (p : FsPath) : Nat :=
  match fs p with
  | some e => e.size
  | none => 0

/-- A side-effecting filesystem call performed by the embedded code. -/
inductive Action where
  | mkdirParents (dir : FsPath)
  | writeText (p : FsPath) (content : String)
  | chmod (p : FsPath) (mode : Nat)
  | rmtree (p : FsPath)
  | copy2 (src dst : FsPath)
  | copytree (src dst : FsPath)
deriving DecidableEq, Repr

/-- A Python exception raised by a filesystem call: either
`PermissionError` or any other exception with its class name and
message. -/
inductive PyExc where
  | permissionError (msg : String)
  | otherError (name msg : String)
deriving DecidableEq, Repr

/-- Python `type(e).__name__` for a modelled exception. -/
def PyExc.clsName : PyExc → String
  | .permissionError _ => "PermissionError"
  | .otherError n _ => n

/-- Python `str(e)` for a modelled exception. -/
def PyExc.msg : PyExc → String
  | .permissionError m => m
  | .otherError _ m => m

/-- An oracle deciding which filesystem call raises which exception
when attempted. -/
abbrev Oracle := Action → Option PyExc

/-- The effect of a successfully executed filesystem call on the
filesystem state. -/
def applyAct (fs : FS) : Action → FS
  | .mkdirParents d => fun q =>
      if q.isPrefixOf d ∧ fs q = none then some ⟨EntryKind.dir, 4096, ""⟩ else fs q
  | .writeText p s => fun q =>
      if q = p then some ⟨EntryKind.file, s.utf8ByteSize, s⟩ else fs q
  | .chmod _ _ => fs
  | .rmtree p => fun q => if p.isPrefixOf q then none else fs q
  | .copy2 src dst => fun q => if q = dst then fs src else fs q
  | .copytree src dst => fun q =>
      if dst.isPrefixOf q then fs (src ++ q.drop dst.length) else fs q

/-- Python `response.strip().lower()`: strip surrounding whitespace and
lowercase (modelled over the character list so it evaluates in the
kernel). -/
def pyStripLower (s : String) : String :=
  String.mk
    (((s.data.dropWhile Char.isWhitespace).reverse.dropWhile
        Char.isWhitespace).reverse.map Char.toLower)

/-- Model of the `oct(mode)[2:]` rendering used when reporting a
successful chmod. -/
def octStr (m : Nat) : String := String.mk (Nat.toDigits 8 m)

/-! Generator data model, from core/generators/file.py. -/

/-- FileSpec dataclass: path, content, and optional chmod mode. -/
structure FileSpec where
  path : FsPath
  content : String
  chmod_mode : Option Nat
deriving DecidableEq, Repr

/-- Normalized operating-system name as produced by Platform
(PLATFORM_MAP values). -/
inductive OSName where
  | windows
  | linux
  | macos
deriving DecidableEq, Repr

/-- stat.S_IRUSR. -/
def S_IRUSR : Nat := 256

/-- stat.S_IWUSR. -/
def S_IWUSR : Nat := 128

/-- The `_pg_base_path` helper: `%APPDATA%/postgresql` on Windows
(falling back to the home directory when APPDATA is unset), the home
directory elsewhere. -/
def pgBasePath (os : OSName) (appdata : Option FsPath) (home : FsPath) : FsPath :=
  if os = OSName.windows then (appdata.getD home) ++ ["postgresql"] else home

/-- Content of the pg_service file, from `get_pg_service_spec`. -/
def pgServiceContent : String :=
  "# Read more: https://www.postgresql.org/docs/current/libpq-pgservice.html\n\n" ++
  "[mydb]\nhost=localhost\nport=5432\ndbname=postgres\nuser=postgres\n"

/-- The `get_pg_service_spec` constructor. -/
def get_pg_service_spec (os : OSName) (appdata : Option FsPath) (home : FsPath) : FileSpec :=
  ⟨pgBasePath os appdata home ++ [".pg_service.conf"], pgServiceContent, none⟩

/-- Content of the pgpass file, from `get_pgpass_spec`. -/
def pgpassContent : String :=
  "# Read more: https://www.postgresql.org/docs/current/libpq-pgpass.html\n\n" ++
  "# hostname:port:database:username:password\n"

/-- The `get_pgpass_spec` constructor: platform-dependent filename and
chmod mode (owner read/write on non-Windows, none on Windows). -/
def get_pgpass_spec (os : OSName) (appdata : Option FsPath) (home : FsPath) : FileSpec :=
  ⟨pgBasePath os appdata home ++
      [if os = OSName.windows then "pgpass.conf" else ".pgpass"],
    pgpassContent,
    if os = OSName.windows then none else some (S_IRUSR ||| S_IWUSR)⟩

/-- Content of the ssh config file, from `get_ssh_config_spec`. -/
def sshConfigContent : String :=
  "# Read more: https://linux.die.net/man/5/ssh_config\n\n" ++
  "Host my_host_alias\n    IdentityFile ~/.ssh/id_rsa\n" ++
  "    User my_user\n    HostName my_domain_or_ip_address\n"

/-- The `get_ssh_config_spec` constructor. -/
def get_ssh_config_spec (home : FsPath) : FileSpec :=
  ⟨home ++ [".ssh", "config"], sshConfigContent, none⟩

/-! The core FileGenerator, from core/generators/file.py. -/

/-- A prompted line is answered affirmatively when its stripped,
lowercased form is in the tuple checked by the source,
satisfying resp in a pair of y and yes. -/
def acceptsResp (s : String) : Prop := pyStripLower s = "y" ∨ pyStripLower s = "yes"

/-- A prompted line is a refusal when its stripped, lowercased form is
in the tuple of n, no and the empty string. -/
def rejectsResp (s : String) : Prop :=
  pyStripLower s = "n" ∨ pyStripLower s = "no" ∨ pyStripLower s = ""

instance (s : String) : Decidable (acceptsResp s) := by
  unfold acceptsResp; infer_instance

instance (s : String) : Decidable (rejectsResp s) := by
  unfold rejectsResp; infer_instance

/-- Result of a confirmation routine: whether to proceed, the messages
printed, and the number of lines read from standard input. -/
structure ConfirmOut where
  proceed : Bool
  out : List String
  prompts : Nat
deriving DecidableEq, Repr

/-- The conflict warning printed on each iteration of the overwrite
confirmation loop. -/
def warnMsg (p : FsPath) : String :=
  "\x27" ++ pathStr p ++ "\x27 exists and is not empty"

/-- The format hint printed for an invalid response. -/
def hintMsg : String := "Please answer with \x27y\x27 or \x27n\x27."

/-- The confirmation loop body of `FileGenerator._should_overwrite`:
iterates over the (at most three) lines read from standard input;
an exhausted list is the loop in the source running out of its three
iterations. -/
def shouldOverwriteLoop (p : FsPath) : List String → ConfirmOut
  | [] => ⟨false, ["Too many invalid responses. Aborted."], 0⟩
  | resp :: rest =>
    if acceptsResp resp then ⟨true, [warnMsg p], 1⟩
    else if rejectsResp resp then ⟨false, [warnMsg p, "Aborted."], 1⟩
    else
      let r := shouldOverwriteLoop p rest
      ⟨r.proceed, warnMsg p :: hintMsg :: r.out, r.prompts + 1⟩

/-- `FileGenerator._should_overwrite`: proceed silently when the path
does not exist, has st_size zero, or overwrite is forced; otherwise run
the confirmation loop over the next three input lines. -/
def shouldOverwrite (fs : FS) (spec : FileSpec) (overwrite : Bool)
    (responses : Nat → String) : ConfirmOut :=
  if ¬ FS.pathExists fs spec.path ∨ FS.stSize fs spec.path = 0 ∨ overwrite = true then
    ⟨true, [], 0⟩
  else shouldOverwriteLoop spec.path ((List.range 3).map responses)

/-- Result of a generator `create` call: the returned value (or the
propagated exception), the filesystem state after the call, the
messages printed, the filesystem calls attempted, and the number of
lines read from standard input. -/
structure GenResult where
  result : Except PyExc Bool
  fs : FS
  out : List String
  acts : List Action
  prompts : Nat

/-- The write phase of `FileGenerator.create`: make parent directories,
write the content (both propagate exceptions), then chmod when the spec
asks for it, downgrading a chmod exception to a warning. -/
def createWritePhase (oracle : Oracle) (fs : FS) (spec : FileSpec) : GenResult :=
  let aMk := Action.mkdirParents spec.path.parent
  match oracle aMk with
  | some e => ⟨Except.error e, fs, [], [aMk], 0⟩
  | none =>
    let fs1 := applyAct fs aMk
    let aWr := Action.writeText spec.path spec.content
    match oracle aWr with
    | some e => ⟨Except.error e, fs1, [], [aMk, aWr], 0⟩
    | none =>
      let fs2 := applyAct fs1 aWr
      let wrote := "✓ File written to " ++ pathStr spec.path
      match spec.chmod_mode with
      | none => ⟨Except.ok true, fs2, [wrote], [aMk, aWr], 0⟩
      | some m =>
        let aCh := Action.chmod spec.path m
        match oracle aCh with
        | some e =>
            ⟨Except.ok true, fs2,
              [wrote,
                "Warning: could not set permissions on " ++ pathStr spec.path ++
                  ": " ++ e.msg],
              [aMk, aWr, aCh], 0⟩
        | none =>
            ⟨Except.ok true, applyAct fs2 aCh,
              [wrote,
                "✓ Permissions secured for " ++ pathStr spec.path ++ " (" ++
                  octStr m ++ ")"],
              [aMk, aWr, aCh], 0⟩

/-- `FileGenerator.create`: confirm, then write and optionally chmod. -/
def FileGenerator.create (oracle : Oracle) (responses : Nat → String) (fs : FS)
    (spec : FileSpec) (overwrite : Bool) : GenResult :=
  let c := shouldOverwrite fs spec overwrite responses
  if c.proceed then
    let w := createWritePhase oracle fs spec
    ⟨w.result, w.fs, c.out ++ w.out, w.acts, c.prompts⟩
  else ⟨Except.ok false, fs, c.out, [], c.prompts⟩

/-! The copy subsystem, from core/io/fscopy.py. -/

/-- Result of a copy call: the returned boolean, the filesystem state
after the call, the messages printed and the filesystem calls
attempted.  The copy functions return a plain boolean because every
exception of the copy phase is caught by their handlers. -/
structure CopyResult where
  ok : Bool
  fs : FS
  out : List String
  acts : List Action

/-- Diagnostic of `Copier._validate_source` for a missing source. -/
def msgNotExist (p : FsPath) : String := "Source path does not exist: " ++ pathStr p

/-- Diagnostic of `FileCopier.copy` for a source that is not a regular
file. -/
def msgNotFile (p : FsPath) : String := "Source is not a file: " ++ pathStr p

/-- Diagnostic of `DirectoryCopier.copy` for a source that is not a
directory. -/
def msgNotDir (p : FsPath) : String := "Source is not a directory: " ++ pathStr p

/-- The message printed by both copy except handlers for a
PermissionError. -/
def msgPermDenied : String :=
  "Permission denied. Check read/write permissions for source and destination."

/-- What the except handlers of `FileCopier.copy` print for a raised
exception. -/
def excMsgFile : PyExc → String
  | .permissionError _ => msgPermDenied
  | .otherError n m => "Failed to copy file: " ++ n ++ ": " ++ m

/-- What the except handlers of `DirectoryCopier.copy` print for a
raised exception. -/
def excMsgDir : PyExc → String
  | .permissionError _ => msgPermDenied
  | .otherError n m => "Failed to copy directory: " ++ n ++ ": " ++ m

/-- Success report of `FileCopier.copy`, flattened to one string. -/
def msgFileCopied (src dst : FsPath) : String :=
  "✓ File copied successfully from " ++ pathStr src ++ " to " ++ pathStr dst

/-- Success report of `DirectoryCopier.copy`, flattened to one string. -/
def msgDirCopied (src dst : FsPath) : String :=
  "✓ Directory copied successfully from " ++ pathStr src ++ " to " ++ pathStr dst

/-- The try block of `FileCopier.copy` together with its except
handlers: make the destination parent directories, then copy2; a raised
exception is caught and reported. -/
def FileCopier.copyTry (oracle : Oracle) (fs : FS) (source destination : FsPath) :
    CopyResult :=
  let aMk := Action.mkdirParents destination.parent
  match oracle aMk with
  | some e => ⟨false, fs, [excMsgFile e], [aMk]⟩
  | none =>
    let fs1 := applyAct fs aMk
    let aCp := Action.copy2 source destination
    match oracle aCp with
    | some e => ⟨false, fs1, [excMsgFile e], [aMk, aCp]⟩
    | none => ⟨true, applyAct fs1 aCp, [msgFileCopied source destination], [aMk, aCp]⟩

/-- `FileCopier.copy`: validate the source, then run the try block. -/
def FileCopier.copy (oracle : Oracle) (fs : FS) (source destination : FsPath) :
    CopyResult :=
  if ¬ FS.pathExists fs source then ⟨false, fs, [msgNotExist source], []⟩
  else if ¬ FS.isFile fs source then ⟨false, fs, [msgNotFile source], []⟩
  else FileCopier.copyTry oracle fs source destination

/-- `DirectoryCopier._prompt_overwrite` decision: affirmative exactly
when the stripped, lowercased response equals y. -/
def DirectoryCopier.promptOverwrite (response : String) : Bool :=
  pyStripLower response = "y"

/-- The message `_prompt_overwrite` prints before reading the
response. -/
def msgAlreadyExists (dst : FsPath) : String := "\n" ++ pathStr dst ++ " already exists."

/-- The copytree step shared by both paths of the directory try block,
together with the except handlers. -/
def DirectoryCopier.treeCopy (oracle : Oracle) (fs : FS) (outPre : List String)
    (acc : List Action) (source destination : FsPath) : CopyResult :=
  let aCt := Action.copytree source destination
  match oracle aCt with
  | some e => ⟨false, fs, outPre ++ [excMsgDir e], acc ++ [aCt]⟩
  | none =>
      ⟨true, applyAct fs aCt, outPre ++ [msgDirCopied source destination],
        acc ++ [aCt]⟩

/-- The try block of `DirectoryCopier.copy` with its except handlers:
when the destination exists, prompt; a refusal prints the abort report
and returns false, an affirmative response deletes the destination tree
first; then copytree. -/
def DirectoryCopier.copyTry (oracle : Oracle) (response : String) (fs : FS)
    (source destination : FsPath) : CopyResult :=
  if FS.pathExists fs destination then
    if ¬ DirectoryCopier.promptOverwrite response then
      ⟨false, fs, [msgAlreadyExists destination, "Copy aborted."], []⟩
    else
      let aRm := Action.rmtree destination
      match oracle aRm with
      | some e => ⟨false, fs, [msgAlreadyExists destination, excMsgDir e], [aRm]⟩
      | none =>
          DirectoryCopier.treeCopy oracle (applyAct fs aRm)
            [msgAlreadyExists destination] [aRm] source destination
  else DirectoryCopier.treeCopy oracle fs [] [] source destination

/-- `DirectoryCopier.copy`: validate the source, then run the try
block. -/
def DirectoryCopier.copy (oracle : Oracle) (response : String) (fs : FS)
    (source destination : FsPath) : CopyResult :=
  if ¬ FS.pathExists fs source then ⟨false, fs, [msgNotExist source], []⟩
  else if ¬ FS.isDir fs source then ⟨false, fs, [msgNotDir source], []⟩
  else DirectoryCopier.copyTry oracle response fs source destination

/-- Diagnostic of `copy_path` for a source that exists but is neither a
regular file nor a directory. -/
def msgNeither (p : FsPath) : String :=
  "Source is neither a file nor a directory: " ++ pathStr p

/-- The `copy_path` dispatcher: pick the copier strategy from the
resolved source type, or report the specific reason and fail. -/
def copy_path (oracle : Oracle) (response : String) (fs : FS)
    (source destination : FsPath) : CopyResult :=
  if FS.isFile fs source then FileCopier.copy oracle fs source destination
  else if FS.isDir fs source then
    DirectoryCopier.copy oracle response fs source destination
  else if ¬ FS.pathExists fs source then ⟨false, fs, [msgNotExist source], []⟩
  else ⟨false, fs, [msgNeither source], []⟩

/-! The superseded generator variant, from generators/base.py and
generators/configs.py.  Its abstract `create` is annotated to return
None, which the pgpass subclass then tests for truthiness. -/

/-- Result of the base-class `create`: the Python value it returns
(always None, modelled as the untruthy `none`), or the propagated
exception; plus filesystem state, output and attempted calls. -/
structure BaseGenResult where
  retval : Except PyExc (Option Bool)
  fs : FS
  out : List String
  acts : List Action

/-- Python truthiness of an optional boolean (None is falsy). -/
def pyTruthy : Option Bool → Bool
  | none => false
  | some b => b

/-- `FileGenerator._confirm_overwrite_if_file_exists` from
generators/base.py: prompt only when the path exists, is a regular
file, has positive size and force is not set; the
while-attempts-below-three loop reads the same three input lines as the
core loop. -/
def baseConfirmOverwrite (fs : FS) (p : FsPath) (force : Bool)
    (responses : Nat → String) : ConfirmOut :=
  if FS.pathExists fs p ∧ FS.isFile fs p ∧ 0 < FS.stSize fs p ∧ force = false then
    shouldOverwriteLoop p ((List.range 3).map responses)
  else ⟨true, [], 0⟩

/-- `FileGenerator.create` from generators/base.py: confirm, make the
parent directories, write, report; every return statement returns
None. -/
def baseCreate (oracle : Oracle) (responses : Nat → String) (fs : FS)
    (p : FsPath) (content : String) (force : Bool) : BaseGenResult :=
  let c := baseConfirmOverwrite fs p force responses
  if ¬ c.proceed then ⟨Except.ok none, fs, c.out, []⟩
  else
    let aMk := Action.mkdirParents p.parent
    match oracle aMk with
    | some e => ⟨Except.error e, fs, c.out, [aMk]⟩
    | none =>
      let fs1 := applyAct fs aMk
      let aWr := Action.writeText p content
      match oracle aWr with
      | some e => ⟨Except.error e, fs1, c.out, [aMk, aWr]⟩
      | none =>
          ⟨Except.ok none, applyAct fs1 aWr,
            c.out ++ ["File written to " ++ pathStr p], [aMk, aWr]⟩

/-- The platform-dependent pgpass path of
`PgPassFileGenerator.file_path` from generators/configs.py. -/
def pgpassFilePath (os : OSName) (appdata home : FsPath) : FsPath :=
  if os = OSName.windows then appdata ++ ["postgresql", "pgpass.conf"]
  else home ++ [".pgpass"]

/-- The pgpass content of `PgPassFileGenerator.data` from
generators/configs.py (the interpolated filename is fixed at import
time from the detected platform). -/
def pgpassData (os : OSName) : String :=
  "# Read more about " ++
  (if os = OSName.windows then "pgpass.conf" else ".pgpass") ++
  " file: https://www.postgresql.org/docs/current/libpq-pgpass.html \n\n" ++
  "# This file should contain lines of the following format:\n" ++
  "# hostname:port:database:username:password\n"

/-- `PgPassFileGenerator.create` from generators/configs.py: delegate
to the base-class create, return False when the delegated value is not
truthy, otherwise chmod on non-Windows (warning on failure) and return
True.  The base-class create returns None, so the truthiness test never
passes. -/
def PgPassFileGenerator.create (oracle : Oracle) (responses : Nat → String)
    (os : OSName) (appdata home : FsPath) (fs : FS) (force : Bool) : BaseGenResult :=
  let p := pgpassFilePath os appdata home
  let base := baseCreate oracle responses fs p (pgpassData os) force
  match base.retval with
  | Except.error e => ⟨Except.error e, base.fs, base.out, base.acts⟩
  | Except.ok v =>
    if ¬ pyTruthy v = true then
      ⟨Except.ok (some false), base.fs, base.out, base.acts⟩
    else
      if os ≠ OSName.windows then
        let aCh := Action.chmod p (S_IRUSR ||| S_IWUSR)
        match oracle aCh with
        | some e =>
            ⟨Except.ok (some true), base.fs,
              base.out ++
                ["Warning: could not set permissions on " ++ pathStr p ++ ": " ++
                  e.msg],
              base.acts ++ [aCh]⟩
        | none =>
            ⟨Except.ok (some true), applyAct base.fs aCh,
              base.out ++ ["✓ Permissions set to 600 for " ++ pathStr p],
              base.acts ++ [aCh]⟩
      else ⟨Except.ok (some true), base.fs, base.out, base.acts⟩

/-! Helper lemmas. -/

/-- A regular file exists. -/
lemma isFile_pathExists {fs : FS} {p : FsPath} (h : FS.isFile fs p = true) :
    FS.pathExists fs p = true := by
  unfold FS.isFile at h
  unfold FS.pathExists
  cases hfs : fs p with
  | none => rw [hfs] at h; exact absurd h (by simp)
  | some e => simp

/-- A directory exists. -/
lemma isDir_pathExists {fs : FS} {p : FsPath} (h : FS.isDir fs p = true) :
    FS.pathExists fs p = true := by
  unfold FS.isDir at h
  unfold FS.pathExists
  cases hfs : fs p with
  | none => rw [hfs] at h; exact absurd h (by simp)
  | some e => simp

/-- Once entered with at least one input line available, the
confirmation loop reads at least one line. -/
lemma shouldOverwriteLoop_prompts_pos (p : FsPath) (resp : String) (rest : List String) :
    0 < (shouldOverwriteLoop p (resp :: rest)).prompts := by
  unfold shouldOverwriteLoop
  split
  · simp
  · split
    · simp
    · simp

/-- The number of prompts of a create call is the number of prompts of
its confirmation step. -/
lemma create_prompts (oracle : Oracle) (responses : Nat → String) (fs : FS)
    (spec : FileSpec) (overwrite : Bool) :
    (FileGenerator.create oracle responses fs spec overwrite).prompts =
      (shouldOverwrite fs spec overwrite responses).prompts := by
  cases h : (shouldOverwrite fs spec overwrite responses).proceed <;>
    simp [FileGenerator.create, h]

/-- The first three input lines, as consumed by the confirmation
loop. -/
lemma range_three_map (responses : Nat → String) :
    (List.range 3).map responses = [responses 0, responses 1, responses 2] := by
  rfl

/-- The fixed oracle on which no filesystem call raises. -/
def o0 : Oracle := fun _ => none

/-- The fixed response stream that always answers n. -/
def respN : Nat → String := fun _ => "n"

/-- Target path of the C1 counterexample. -/
def cexPath : FsPath := ["cfg"]

/-- A filesystem whose only entry is a directory of size 4096 at the
counterexample path. -/
def cexFs : FS := fun p => if p = cexPath then some ⟨EntryKind.dir, 4096, ""⟩ else none

/-- A FileSpec targeting the counterexample path. -/
def cexSpec : FileSpec := ⟨cexPath, "x", none⟩

/-- Claim C1, counterexample: with the target path an existing
directory of non-zero st_size and force false, the core
FileGenerator.create enters the interactive confirmation prompt even
though the path is not a regular file — `_should_overwrite` checks only
existence and st_size, never `is_file()`. -/
theorem claim_C1_counterexample :
    FS.isFile cexFs cexPath = false ∧
      0 < (FileGenerator.create o0 respN cexFs cexSpec false).prompts := by
  constructor
  · decide
  · decide

/-- Claim C1, amended: the core FileGenerator.create enters the
interactive confirmation prompt if and only if the target path exists,
has non-zero st_size, and force is false; whether the existing path is
a regular file is not checked. -/
theorem claim_C1_amended (oracle : Oracle) (responses : Nat → String) (fs : FS)
    (spec : FileSpec) (force : Bool) :
    0 < (FileGenerator.create oracle responses fs spec force).prompts ↔
      (FS.pathExists fs spec.path = true ∧ FS.stSize fs spec.path ≠ 0 ∧
        force = false) := by
  rw [create_prompts]
  unfold shouldOverwrite
  split
  · rename_i h
    constructor
    · intro h0; exact absurd h0 (by simp)
    · rintro ⟨h1, h2, h3⟩
      rcases h with h | h | h
      · exact absurd h1 h
      · exact absurd h h2
      · rw [h3] at h; exact absurd h (by simp)
  · rename_i h
    push_neg at h
    obtain ⟨h1, h2, h3⟩ := h
    apply iff_of_true
    · rw [range_three_map]
      exact shouldOverwriteLoop_prompts_pos _ _ _
    · exact ⟨h1, h2, by simpa using h3⟩

/-- When the source is a regular file, `FileCopier.copy` skips both
validation-failure branches and runs exactly its try block. -/
lemma fileCopy_eq_try (oracle : Oracle) (fs : FS) (src dst : FsPath)
    (h : FS.isFile fs src = true) :
    FileCopier.copy oracle fs src dst = FileCopier.copyTry oracle fs src dst := by
  simp [FileCopier.copy, isFile_pathExists h, h]

/-- When the source is a directory, `DirectoryCopier.copy` skips both
validation-failure branches and runs exactly its try block. -/
lemma dirCopy_eq_try (oracle : Oracle) (response : String) (fs : FS)
    (src dst : FsPath) (h : FS.isDir fs src = true) :
    DirectoryCopier.copy oracle response fs src dst =
      DirectoryCopier.copyTry oracle response fs src dst := by
  simp [DirectoryCopier.copy, isDir_pathExists h, h]

/-- A filesystem with a regular file at f, a source directory at s and
a destination directory at d. -/
def fsW : FS := fun p =>
  if p = ["f"] then some ⟨EntryKind.file, 5, "hello"⟩
  else if p = ["s"] then some ⟨EntryKind.dir, 4096, ""⟩
  else if p = ["d"] then some ⟨EntryKind.dir, 4096, ""⟩
  else none

/-- The empty filesystem. -/
def fs0 : FS := fun _ => none

/-- Claim C2: when the destination of a directory copy exists and the
prompt response is anything other than an affirmative y, the copy
reports Copy aborted., returns false, leaves the filesystem unchanged
and attempts no filesystem call — in particular the recursive delete is
never invoked. -/
theorem claim_C2 (oracle : Oracle) (response : String) (fs : FS) (src dst : FsPath)
    (hsrc : FS.isDir fs src = true) (hdst : FS.pathExists fs dst = true)
    (hresp : ¬ pyStripLower response = "y") :
    (DirectoryCopier.copy oracle response fs src dst).ok = false ∧
      (DirectoryCopier.copy oracle response fs src dst).fs = fs ∧
      (DirectoryCopier.copy oracle response fs src dst).acts = [] ∧
      "Copy aborted." ∈ (DirectoryCopier.copy oracle response fs src dst).out := by
  rw [dirCopy_eq_try oracle response fs src dst hsrc]
  simp [DirectoryCopier.copyTry, hdst, DirectoryCopier.promptOverwrite, hresp]

/-- Claim C2 witness: a concrete refused directory copy. -/
theorem claim_C2_witness :
    (DirectoryCopier.copy o0 ("no") fsW ["s"] ["d"]).ok = false ∧
      (DirectoryCopier.copy o0 ("no") fsW ["s"] ["d"]).fs = fsW ∧
      (DirectoryCopier.copy o0 ("no") fsW ["s"] ["d"]).acts = [] ∧
      "Copy aborted." ∈ (DirectoryCopier.copy o0 ("no") fsW ["s"] ["d"]).out :=
  claim_C2 o0 ("no") fsW ["s"] ["d"] (by decide) (by decide) (by decide)

/-- Claim C3: after stripping and lowercasing, the generator overwrite
prompt proceeds exactly on y or yes, the directory-copy overwrite
prompt proceeds exactly on y, and on the response yes the generator
proceeds while the directory copy aborts. -/
theorem claim_C3 (s : String) :
    ((shouldOverwriteLoop cexPath [s, "n", "n"]).proceed = true ↔
        (pyStripLower s = "y" ∨ pyStripLower s = "yes")) ∧
      (DirectoryCopier.promptOverwrite s = true ↔ pyStripLower s = "y") ∧
      (shouldOverwriteLoop cexPath ["yes", "n", "n"]).proceed = true ∧
      DirectoryCopier.promptOverwrite ("yes") = false ∧
      (DirectoryCopier.copy o0 ("yes") fsW ["s"] ["d"]).ok = false ∧
      "Copy aborted." ∈ (DirectoryCopier.copy o0 ("yes") fsW ["s"] ["d"]).out := by
  refine ⟨?_, ?_, by decide, by decide, by decide, by decide⟩
  · by_cases ha : acceptsResp s
    · simp only [shouldOverwriteLoop, if_pos ha]
      exact iff_of_true trivial ha
    · simp only [shouldOverwriteLoop, if_neg ha]
      by_cases hr : rejectsResp s
      · simp only [if_pos hr]
        exact iff_of_false (by simp) ha
      · simp only [if_neg hr]
        refine iff_of_false ?_ ha
        decide
  · simp [DirectoryCopier.promptOverwrite]

/-- Claim C4: when the source is neither a regular file nor a
directory, copy_path returns false without attempting any filesystem
call, leaves the filesystem unchanged, and prints exactly the specific
diagnostic — does not exist for a missing source, neither a file nor a
directory otherwise. -/
theorem claim_C4 (oracle : Oracle) (response : String) (fs : FS) (src dst : FsPath)
    (h1 : FS.isFile fs src = false) (h2 : FS.isDir fs src = false) :
    (copy_path oracle response fs src dst).ok = false ∧
      (copy_path oracle response fs src dst).fs = fs ∧
      (copy_path oracle response fs src dst).acts = [] ∧
      (copy_path oracle response fs src dst).out =
        (if FS.pathExists fs src = false then [msgNotExist src]
          else [msgNeither src]) := by
  by_cases hx : FS.pathExists fs src = true <;>
    simp [copy_path, h1, h2, hx]

/-- Claim C4 witness: copying a missing source path fails with the
does-not-exist diagnostic and no filesystem call. -/
theorem claim_C4_witness :
    (copy_path o0 ("") fs0 ["missing", "file.txt"] ["dest.txt"]).ok = false ∧
      (copy_path o0 ("") fs0 ["missing", "file.txt"] ["dest.txt"]).fs = fs0 ∧
      (copy_path o0 ("") fs0 ["missing", "file.txt"] ["dest.txt"]).acts = [] ∧
      (copy_path o0 ("") fs0 ["missing", "file.txt"] ["dest.txt"]).out =
        (if FS.pathExists fs0 ["missing", "file.txt"] = false
          then [msgNotExist ["missing", "file.txt"]]
          else [msgNeither ["missing", "file.txt"]]) :=
  claim_C4 o0 ("") fs0 ["missing", "file.txt"] ["dest.txt"] (by decide) (by decide)

/-- An affirmative line ends the confirmation loop with success after
one prompt. -/
lemma loop_accept (p : FsPath) (resp : String) (rest : List String)
    (h : acceptsResp resp) :
    shouldOverwriteLoop p (resp :: rest) = ⟨true, [warnMsg p], 1⟩ := by
  simp only [shouldOverwriteLoop, if_pos h]

/-- A refusing line ends the confirmation loop with the abort report
after one prompt. -/
lemma loop_reject (p : FsPath) (resp : String) (rest : List String)
    (ha : ¬ acceptsResp resp) (hr : rejectsResp resp) :
    shouldOverwriteLoop p (resp :: rest) = ⟨false, [warnMsg p, "Aborted."], 1⟩ := by
  simp only [shouldOverwriteLoop, if_neg ha, if_pos hr]

/-- An invalid line prints the format hint and hands over to the rest
of the loop, consuming one prompt. -/
lemma loop_invalid (p : FsPath) (resp : String) (rest : List String)
    (ha : ¬ acceptsResp resp) (hr : ¬ rejectsResp resp) :
    shouldOverwriteLoop p (resp :: rest) =
      ⟨(shouldOverwriteLoop p rest).proceed,
        warnMsg p :: hintMsg :: (shouldOverwriteLoop p rest).out,
        (shouldOverwriteLoop p rest).prompts + 1⟩ := by
  simp only [shouldOverwriteLoop, if_neg ha, if_neg hr]

/-- A refusing response is never an affirmative one: the two accepted
tuples are disjoint. -/
lemma not_accepts_of_rejects {s : String} (hr : rejectsResp s) : ¬ acceptsResp s := by
  intro ha
  rcases ha with h1 | h1 <;> rcases hr with h2 | h2 | h2 <;> rw [h1] at h2 <;>
    exact absurd h2 (by decide)

/-- Claim C6: in the generator confirmation loop, after any run of
fewer than three invalid responses, an affirmative line proceeds and a
refusing line aborts with the Aborted. report, each having consumed one
prompt per line read; three invalid responses exhaust the attempt
budget and abort with the too-many-invalid-responses report. -/
theorem claim_C6 (p : FsPath) (responses : Nat → String) :
    (∀ k, k < 3 →
      (∀ i, i < k → ¬ acceptsResp (responses i) ∧ ¬ rejectsResp (responses i)) →
      ((acceptsResp (responses k) →
          (shouldOverwriteLoop p ((List.range 3).map responses)).proceed = true ∧
          (shouldOverwriteLoop p ((List.range 3).map responses)).prompts = k + 1) ∧
        (rejectsResp (responses k) →
          (shouldOverwriteLoop p ((List.range 3).map responses)).proceed = false ∧
          "Aborted." ∈ (shouldOverwriteLoop p ((List.range 3).map responses)).out ∧
          (shouldOverwriteLoop p ((List.range 3).map responses)).prompts = k + 1))) ∧
    ((∀ i, i < 3 → ¬ acceptsResp (responses i) ∧ ¬ rejectsResp (responses i)) →
      (shouldOverwriteLoop p ((List.range 3).map responses)).proceed = false ∧
      "Too many invalid responses. Aborted." ∈
        (shouldOverwriteLoop p ((List.range 3).map responses)).out ∧
      (shouldOverwriteLoop p ((List.range 3).map responses)).prompts = 3) := by
  rw [range_three_map]
  constructor
  · intro k hk hinv
    interval_cases k
    · constructor
      · intro hacc
        rw [loop_accept p (responses 0) _ hacc]
        exact ⟨rfl, rfl⟩
      · intro hrej
        rw [loop_reject p (responses 0) _ (not_accepts_of_rejects hrej) hrej]
        exact ⟨rfl, by simp, rfl⟩
    · obtain ⟨ha0, hr0⟩ := hinv 0 (by omega)
      rw [loop_invalid p (responses 0) _ ha0 hr0]
      constructor
      · intro hacc
        rw [loop_accept p (responses 1) _ hacc]
        exact ⟨rfl, rfl⟩
      · intro hrej
        rw [loop_reject p (responses 1) _ (not_accepts_of_rejects hrej) hrej]
        exact ⟨rfl, by simp, rfl⟩
    · obtain ⟨ha0, hr0⟩ := hinv 0 (by omega)
      obtain ⟨ha1, hr1⟩ := hinv 1 (by omega)
      rw [loop_invalid p (responses 0) _ ha0 hr0,
        loop_invalid p (responses 1) _ ha1 hr1]
      constructor
      · intro hacc
        rw [loop_accept p (responses 2) _ hacc]
        exact ⟨rfl, rfl⟩
      · intro hrej
        rw [loop_reject p (responses 2) _ (not_accepts_of_rejects hrej) hrej]
        exact ⟨rfl, by simp, rfl⟩
  · intro hinv
    obtain ⟨ha0, hr0⟩ := hinv 0 (by omega)
    obtain ⟨ha1, hr1⟩ := hinv 1 (by omega)
    obtain ⟨ha2, hr2⟩ := hinv 2 (by omega)
    rw [loop_invalid p (responses 0) _ ha0 hr0,
      loop_invalid p (responses 1) _ ha1 hr1,
      loop_invalid p (responses 2) _ ha2 hr2]
    exact ⟨rfl, by simp [shouldOverwriteLoop], rfl⟩

/-- A response stream whose first line is invalid and whose second line
is affirmative. -/
def respW : Nat → String := fun i => if i = 0 then "maybe" else "yes"

/-- Claim C6 witness: one invalid response followed by yes proceeds
after two prompts. -/
theorem claim_C6_witness :
    (shouldOverwriteLoop cexPath ((List.range 3).map respW)).proceed = true ∧
      (shouldOverwriteLoop cexPath ((List.range 3).map respW)).prompts = 1 + 1 :=
  ((claim_C6 cexPath respW).1 1 (by omega)
      (fun i hi => by
        interval_cases i
        exact ⟨by decide, by decide⟩)).1
    (by decide)

/-- The situations in which the try block of a directory copy raises an
exception e: the recursive delete raises after an affirmative prompt,
or the tree copy raises (with or without a preceding delete). -/
def dirRaises (oracle : Oracle) (response : String) (fs : FS) (src dst : FsPath)
    (e : PyExc) : Prop :=
  (FS.pathExists fs dst = true ∧ DirectoryCopier.promptOverwrite response = true ∧
      oracle (Action.rmtree dst) = some e) ∨
    (FS.pathExists fs dst = true ∧ DirectoryCopier.promptOverwrite response = true ∧
      oracle (Action.rmtree dst) = none ∧ oracle (Action.copytree src dst) = some e) ∨
    (FS.pathExists fs dst = false ∧ oracle (Action.copytree src dst) = some e)

/-- Claim C7: the copy strategies never propagate an exception: each
raised exception is caught by the handlers, which return false and
print the permission-specific message for a PermissionError and a
message naming the exception class and message otherwise. -/
theorem claim_C7 (oracle : Oracle) (response : String) (fs : FS) (src dst : FsPath)
    (e : PyExc) :
    (∀ m, excMsgFile (PyExc.permissionError m) = msgPermDenied) ∧
      (∀ n m, excMsgFile (PyExc.otherError n m) =
        "Failed to copy file: " ++ n ++ ": " ++ m) ∧
      (∀ m, excMsgDir (PyExc.permissionError m) = msgPermDenied) ∧
      (∀ n m, excMsgDir (PyExc.otherError n m) =
        "Failed to copy directory: " ++ n ++ ": " ++ m) ∧
      (FS.isFile fs src = true →
        (oracle (Action.mkdirParents dst.parent) = some e ∨
          (oracle (Action.mkdirParents dst.parent) = none ∧
            oracle (Action.copy2 src dst) = some e)) →
        (FileCopier.copy oracle fs src dst).ok = false ∧
          excMsgFile e ∈ (FileCopier.copy oracle fs src dst).out) ∧
      (FS.isDir fs src = true → dirRaises oracle response fs src dst e →
        (DirectoryCopier.copy oracle response fs src dst).ok = false ∧
          excMsgDir e ∈ (DirectoryCopier.copy oracle response fs src dst).out) := by
  refine ⟨fun m => rfl, fun n m => rfl, fun m => rfl, fun n m => rfl, ?_, ?_⟩
  · intro hf hcase
    rw [fileCopy_eq_try oracle fs src dst hf]
    rcases hcase with h | ⟨h1, h2⟩
    · simp [FileCopier.copyTry, h]
    · simp [FileCopier.copyTry, h1, h2]
  · intro hd hcase
    rw [dirCopy_eq_try oracle response fs src dst hd]
    rcases hcase with ⟨h1, h2, h3⟩ | ⟨h1, h2, h3, h4⟩ | ⟨h1, h2⟩
    · simp [DirectoryCopier.copyTry, h1, h2, h3]
    · simp [DirectoryCopier.copyTry, DirectoryCopier.treeCopy, h1, h2, h3, h4]
    · simp [DirectoryCopier.copyTry, DirectoryCopier.treeCopy, h1, h2]

/-- An oracle on which copy2 raises a PermissionError and copytree
raises an OSError. -/
def oRaise : Oracle := fun a =>
  if a = Action.copy2 ["f"] ["d2"] then some (PyExc.permissionError ("denied"))
  else if a = Action.copytree ["s"] ["t"] then
    some (PyExc.otherError ("OSError") ("disk full"))
  else none

/-- Claim C7 witness: a permission failure during a file copy and a
generic failure during a directory copy are both caught and
reported. -/
theorem claim_C7_witness :
    ((FileCopier.copy oRaise fsW ["f"] ["d2"]).ok = false ∧
      excMsgFile (PyExc.permissionError ("denied")) ∈
        (FileCopier.copy oRaise fsW ["f"] ["d2"]).out) ∧
    ((DirectoryCopier.copy oRaise ("y") fsW ["s"] ["t"]).ok = false ∧
      excMsgDir (PyExc.otherError ("OSError") ("disk full")) ∈
        (DirectoryCopier.copy oRaise ("y") fsW ["s"] ["t"]).out) :=
  ⟨(claim_C7 oRaise ("y") fsW ["f"] ["d2"] (PyExc.permissionError ("denied"))).2.2.2.2.1
      (by decide) (Or.inr ⟨by decide, by decide⟩),
    (claim_C7 oRaise ("y") fsW ["s"] ["t"] (PyExc.otherError ("OSError") ("disk full"))).2.2.2.2.2
      (by decide) (Or.inr (Or.inr ⟨by decide, by decide⟩))⟩

/-- Claim C9: the dispatcher invokes the file strategy exactly on a
regular-file source and the directory strategy exactly on a directory
source, and in each case the strategy re-validation cannot fail: the
invoked copy equals its try block, so the does-not-exist and wrong-type
branches are unreachable. -/
theorem claim_C9 (oracle : Oracle) (response : String) (fs : FS) (src dst : FsPath) :
    (FS.isFile fs src = true →
      copy_path oracle response fs src dst = FileCopier.copy oracle fs src dst ∧
        FileCopier.copy oracle fs src dst = FileCopier.copyTry oracle fs src dst) ∧
      (FS.isFile fs src = false → FS.isDir fs src = true →
        copy_path oracle response fs src dst =
          DirectoryCopier.copy oracle response fs src dst ∧
          DirectoryCopier.copy oracle response fs src dst =
            DirectoryCopier.copyTry oracle response fs src dst) := by
  constructor
  · intro hf
    exact ⟨by simp [copy_path, hf], fileCopy_eq_try oracle fs src dst hf⟩
  · intro hnf hd
    exact ⟨by simp [copy_path, hnf, hd], dirCopy_eq_try oracle response fs src dst hd⟩

/-- Claim C9 witness: the dispatch and validation-skip equalities at a
concrete file source and a concrete directory source. -/
theorem claim_C9_witness :
    (copy_path o0 ("") fsW ["f"] ["d2"] = FileCopier.copy o0 fsW ["f"] ["d2"] ∧
      FileCopier.copy o0 fsW ["f"] ["d2"] = FileCopier.copyTry o0 fsW ["f"] ["d2"]) ∧
    (copy_path o0 ("y") fsW ["s"] ["t"] = DirectoryCopier.copy o0 ("y") fsW ["s"] ["t"] ∧
      DirectoryCopier.copy o0 ("y") fsW ["s"] ["t"] =
        DirectoryCopier.copyTry o0 ("y") fsW ["s"] ["t"]) :=
  ⟨(claim_C9 o0 ("") fsW ["f"] ["d2"]).1 (by decide),
    (claim_C9 o0 ("y") fsW ["s"] ["t"]).2 (by decide) (by decide)⟩

/-- With overwrite forced and the directory-creation and write calls
succeeding, create returns True and leaves the spec content at the
target path. -/
lemma create_force (oracle : Oracle) (responses : Nat → String) (fs : FS)
    (spec : FileSpec)
    (hMk : oracle (Action.mkdirParents spec.path.parent) = none)
    (hWr : oracle (Action.writeText spec.path spec.content) = none) :
    (FileGenerator.create oracle responses fs spec true).result = Except.ok true ∧
      (FileGenerator.create oracle responses fs spec true).fs spec.path =
        some ⟨EntryKind.file, spec.content.utf8ByteSize, spec.content⟩ := by
  have hp : (shouldOverwrite fs spec true responses).proceed = true := by
    unfold shouldOverwrite
    split
    · rfl
    · rename_i h
      exact absurd (Or.inr (Or.inr rfl)) h
  cases hc : spec.chmod_mode with
  | none =>
      simp [FileGenerator.create, hp, createWritePhase, hMk, hWr, hc, applyAct]
  | some m =>
      cases ho : oracle (Action.chmod spec.path m) <;>
        simp [FileGenerator.create, hp, createWritePhase, hMk, hWr, hc, ho, applyAct]

/-- Claim C8: calling create with force twice in succession returns
True both times, and the target file content after the second call is
identical to its content after the first call, both being the spec
content. -/
theorem claim_C8 (oracle : Oracle) (responses responses2 : Nat → String) (fs : FS)
    (spec : FileSpec)
    (hMk : oracle (Action.mkdirParents spec.path.parent) = none)
    (hWr : oracle (Action.writeText spec.path spec.content) = none) :
    (FileGenerator.create oracle responses fs spec true).result = Except.ok true ∧
      (FileGenerator.create oracle responses2
          (FileGenerator.create oracle responses fs spec true).fs spec true).result =
        Except.ok true ∧
      (FileGenerator.create oracle responses fs spec true).fs spec.path =
        some ⟨EntryKind.file, spec.content.utf8ByteSize, spec.content⟩ ∧
      (FileGenerator.create oracle responses2
          (FileGenerator.create oracle responses fs spec true).fs spec true).fs
          spec.path =
        (FileGenerator.create oracle responses fs spec true).fs spec.path := by
  obtain ⟨h1, h2⟩ := create_force oracle responses fs spec hMk hWr
  obtain ⟨h3, h4⟩ :=
    create_force oracle responses2
      (FileGenerator.create oracle responses fs spec true).fs spec hMk hWr
  exact ⟨h1, h3, h2, h4.trans h2.symm⟩

/-- Claim C8 witness: a concrete double forced create. -/
theorem claim_C8_witness :
    (FileGenerator.create o0 respN fs0 cexSpec true).result = Except.ok true ∧
      (FileGenerator.create o0 respN
          (FileGenerator.create o0 respN fs0 cexSpec true).fs cexSpec true).result =
        Except.ok true ∧
      (FileGenerator.create o0 respN fs0 cexSpec true).fs cexSpec.path =
        some ⟨EntryKind.file, cexSpec.content.utf8ByteSize, cexSpec.content⟩ ∧
      (FileGenerator.create o0 respN
          (FileGenerator.create o0 respN fs0 cexSpec true).fs cexSpec true).fs
          cexSpec.path =
        (FileGenerator.create o0 respN fs0 cexSpec true).fs cexSpec.path :=
  claim_C8 o0 respN respN fs0 cexSpec rfl rfl

/-- Claim C10: create attempts a chmod exactly when the spec sets a
chmod mode — never when chmod_mode is None, and always on a successful
create when it is set; pg_service and ssh_config specs never set one,
and the pgpass spec sets one exactly off Windows. -/
theorem claim_C10 (oracle : Oracle) (responses : Nat → String) (fs : FS)
    (spec : FileSpec) (force : Bool) (os : OSName) (appdata : Option FsPath)
    (home : FsPath) :
    (spec.chmod_mode = none →
      ∀ q m, Action.chmod q m ∉ (FileGenerator.create oracle responses fs spec force).acts) ∧
      ((FileGenerator.create oracle responses fs spec force).result = Except.ok true →
        ((∃ q m, Action.chmod q m ∈
            (FileGenerator.create oracle responses fs spec force).acts) ↔
          spec.chmod_mode ≠ none)) ∧
      (get_pg_service_spec os appdata home).chmod_mode = none ∧
      (get_ssh_config_spec home).chmod_mode = none ∧
      ((get_pgpass_spec os appdata home).chmod_mode = none ↔ os = OSName.windows) := by
  refine ⟨?_, ?_, rfl, rfl, ?_⟩
  · intro hnone q m
    cases hp : (shouldOverwrite fs spec force responses).proceed
    · simp [FileGenerator.create, hp]
    · cases o1 : oracle (Action.mkdirParents spec.path.parent)
      · cases o2 : oracle (Action.writeText spec.path spec.content)
        · simp [FileGenerator.create, hp, createWritePhase, o1, o2, hnone]
        · simp [FileGenerator.create, hp, createWritePhase, o1, o2]
      · simp [FileGenerator.create, hp, createWritePhase, o1]
  · intro hok
    cases hp : (shouldOverwrite fs spec force responses).proceed
    · rw [FileGenerator.create] at hok
      simp [hp] at hok
    · cases o1 : oracle (Action.mkdirParents spec.path.parent)
      · cases o2 : oracle (Action.writeText spec.path spec.content)
        · cases hc : spec.chmod_mode with
          | none =>
              simp [FileGenerator.create, hp, createWritePhase, o1, o2, hc]
          | some m =>
              cases o3 : oracle (Action.chmod spec.path m) <;>
                simp [FileGenerator.create, hp, createWritePhase, o1, o2, hc, o3]
        · rw [FileGenerator.create] at hok
          simp [hp, createWritePhase, o1, o2] at hok
      · rw [FileGenerator.create] at hok
        simp [hp, createWritePhase, o1] at hok
  · cases os <;> simp [get_pgpass_spec]

/-- The pgpass spec computed for a Linux host. -/
def pgLinuxSpec : FileSpec := get_pgpass_spec OSName.linux none ["home"]

/-- Claim C10 witness: no chmod is attempted for a spec without a
chmod mode, and a successful pgpass create on Linux attempts one. -/
theorem claim_C10_witness :
    Action.chmod ["x"] 5 ∉ (FileGenerator.create o0 respN fs0 cexSpec false).acts ∧
      ((∃ q m, Action.chmod q m ∈
          (FileGenerator.create o0 respN fs0 pgLinuxSpec false).acts) ↔
        pgLinuxSpec.chmod_mode ≠ none) :=
  ⟨(claim_C10 o0 respN fs0 cexSpec false OSName.linux none ["home"]).1 rfl ["x"] 5,
    (claim_C10 o0 respN fs0 pgLinuxSpec false OSName.linux none ["home"]).2.1 rfl⟩

/-- Home directory of the C5 failing input. -/
def c5home : FsPath := ["home", "u"]

/-- The pgpass target path of the C5 failing input. -/
def c5path : FsPath := ["home", "u", ".pgpass"]

/-- An oracle on which every chmod call raises a PermissionError. -/
def oChmodRaise : Oracle := fun a =>
  match a with
  | Action.chmod _ _ => some (PyExc.permissionError ("operation not permitted"))
  | _ => none

set_option maxRecDepth 8000 in
/-- Claim C5, the code slip in generators/configs.py evaluated at the
failing input: on Linux with the target absent and every filesystem
call succeeding, PgPassFileGenerator.create writes the file yet returns
False and never attempts the chmod, because the base-class create
returns None and the not-super-create test therefore always takes the
early return False.  The core FileGenerator.create (which the spec
describes) returns True even when the chmod raises. -/
theorem claim_C5_bug :
    (PgPassFileGenerator.create o0 respN OSName.linux [] c5home fs0 false).retval =
        Except.ok (some false) ∧
      (PgPassFileGenerator.create o0 respN OSName.linux [] c5home fs0 false).fs c5path =
        some ⟨EntryKind.file, (pgpassData OSName.linux).utf8ByteSize,
          pgpassData OSName.linux⟩ ∧
      (PgPassFileGenerator.create o0 respN OSName.linux [] c5home fs0 false).acts =
        [Action.mkdirParents c5home, Action.writeText c5path (pgpassData OSName.linux)] ∧
      (FileGenerator.create oChmodRaise respN fs0
          (get_pgpass_spec OSName.linux none c5home) false).result = Except.ok true := by
  refine ⟨rfl, ?_, rfl, rfl⟩
  decide

end Cwc
